import Mathlib

/-
Shallow embedding of `src/server.js` (fns-receipt-service).

External collaborators (the tax-authority client `nalogApi`, the SMTP
transporter, the filesystem) are modelled as oracles recorded in an `Env`
value; the handler returns its HTTP response together with a trace of the
side effects it performed, so that claims about "zero downstream calls"
and about the data passed to the failure recorder are statable.
-/

namespace FnsReceipt

/-- A purchased line item from the request body.  The code reads the
quantity as `i.quantity || 1`, so an absent quantity is modelled as `none`
and JavaScript's `||` additionally treats `0` as falsy (see `qtyOr1`).
Prices are modelled as rationals. -/
structure LineItem where
  id : Nat
  name : String
  price : ℚ
  quantity : Option Nat
  deriving DecidableEq, Repr

/-- `i.quantity || 1` — JavaScript `||` yields 1 both when the field is
absent and when it is `0`. -/
def qtyOr1 : Option Nat → Nat
  | none => 1
  | some 0 => 1
  | some (n + 1) => n + 1

/-- The contribution of one item to the total: `i.price * (i.quantity || 1)`. -/
def itemAmount (i : LineItem) : ℚ :=
  i.price * (qtyOr1 i.quantity : ℚ)

/-- `items.reduce((sum, i) => sum + i.price * (i.quantity || 1), 0)`
(`server.js` lines 151-154): the unrounded grand total. -/
def totalOf (items : List LineItem) : ℚ :=
  items.foldl (fun sum i => sum + itemAmount i) 0

/-- `Number(x.toFixed(2))` (`server.js` line 158): round to two decimal
places, standard rounding (ties up). -/
def toFixed2 (q : ℚ) : ℚ :=
  ((round (q * 100) : ℤ) : ℚ) / 100

/-- The `income` object sent to the registrar (`server.js` lines 156-160). -/
structure Income where
  name : String
  amount : ℚ
  quantity : Nat
  deriving DecidableEq, Repr

/-- `MAX_RETRIES = 3` (`server.js` line 21). -/
def MAX_RETRIES : Nat := 3

/-- The retry loop of `createReceiptWithRetry` (`server.js` lines 40-50).
`oracle k` is the outcome of the k-th `nalogApi.addIncome` call.  The fuel
argument is the number of attempts still allowed (`retries - attempt + 1`);
the JavaScript condition `attempt === retries` corresponds to fuel 1.
Returns the propagated result (`none` models the `undefined` a zero-retry
call would fall through to) together with the number of calls made. -/
def retryLoop {E R : Type} (oracle : Nat → Except E R) (attempt : Nat) :
    Nat → Option (Except E R) × Nat
  | 0 => (none, 0)
  | remaining + 1 =>
    match oracle attempt with
    | .ok r => (some (.ok r), 1)
    | .error e =>
      if remaining = 0 then (some (.error e), 1)
      else
        let p := retryLoop oracle (attempt + 1) remaining
        (p.1, p.2 + 1)

/-- `createReceiptWithRetry(income, retries)` (`server.js` lines 40-50),
with the income already applied to the client so that `oracle` gives each
attempt's outcome.  Attempts are numbered from 1 as in the source. -/
def createReceiptWithRetry {E R : Type} (oracle : Nat → Except E R) (retries : Nat) :
    Option (Except E R) × Nat :=
  retryLoop oracle 1 retries

/-- The `errorData` object built in the outer catch handler
(`server.js` lines 241-247). -/
structure ErrorData where
  email : Option String
  items : List LineItem
  amount : ℚ
  error : String
  api_pass : String
  deriving DecidableEq, Repr

/-- One record of `error.json`: the spread `errorData` plus the generated
timestamp and `retryAttempt: 0` (`server.js` lines 65-69). -/
structure FailureRecord where
  data : ErrorData
  timestamp : String
  retryAttempt : Nat
  deriving DecidableEq, Repr

/-- Outcome of reading and parsing `ERROR_FILE` (`server.js` lines 56-63):
the read may throw, the parse may throw, and a successful parse may or may
not be an array. -/
inductive FileContent where
  | readError (e : String)
  | parseError (e : String)
  | nonArray
  | array (records : List FailureRecord)
  deriving DecidableEq, Repr

/-- The prior collection `errors` after the inner try/catch of
`saveToErrorFile`: only a successfully parsed array survives; every other
outcome leaves the zero-initialised `[]` in place. -/
def priorRecords : FileContent → List FailureRecord
  | .array rs => rs
  | _ => []

/-- `saveToErrorFile(errorData)` (`server.js` lines 52-76).  `content` is
the read/parse outcome for `ERROR_FILE`, `write` the outcome of
`fs.writeFile` on a given new collection, `ts` the generated timestamp.
Returns the file's new contents when the write succeeded, `none` when the
write failed; in both cases the surrounding try/catch swallows the error,
so the function itself is total and never propagates a failure. -/
def saveToErrorFile (content : FileContent)
    (write : List FailureRecord → Except String Unit)
    (errorData : ErrorData) (ts : String) : Option (List FailureRecord) :=
  let errors := priorRecords content
  let newErrors := errors ++ [⟨errorData, ts, 0⟩]
  match write newErrors with
  | .ok _ => some newErrors
  | .error _ => none

/-- `err.message || "Неизвестная ошибка"` (`server.js` line 245). -/
def errMessageOr (msg : String) : String :=
  if msg = "" then "Неизвестная ошибка" else msg

/-- Configuration drawn from the environment: `API_PASS`, `APPNAME`, `INN`. -/
structure Config where
  apiPass : String
  appname : String
  inn : String
  deriving DecidableEq, Repr

/-- The request body `{api_pass, email, items}`.  `email = none` models a
missing email; `items = none` models a missing, `null` or non-array
`items` field (everything `Array.isArray` rejects). -/
structure Request where
  api_pass : String
  email : Option String
  items : Option (List LineItem)
  deriving DecidableEq, Repr

/-- JavaScript truthiness of `email`: absent and `""` are falsy. -/
def emailPresent : Option String → Bool
  | none => false
  | some s => !(s == "")

/-- `!email || !Array.isArray(items) || items.length === 0`
(`server.js` line 147). -/
def invalidData (req : Request) : Bool :=
  !emailPresent req.email ||
    (match req.items with
     | none => true
     | some l => l.isEmpty)

/-- Oracles for the external world consumed by one request. -/
structure Env where
  addIncome : Income → Nat → Except String String
  sendCustomerMail : Except String Unit
  fileContent : FileContent
  writeFile : List FailureRecord → Except String Unit
  sendAdminMail : Except String Unit
  timestamp : String

/-- The JSON responses the handler can produce, tagged with their HTTP
status: `error status msg saved` covers the 401/400/500 bodies
(`saved = some b` when the body carries `saved_to_error_file: b`),
`ok receiptId printLink` the 200 success body. -/
inductive Response where
  | error (status : Nat) (msg : String) (saved : Option Bool)
  | ok (receiptId : String) (printLink : String)
  deriving DecidableEq, Repr

/-- The HTTP status of a response. -/
def Response.status : Response → Nat
  | .error s _ _ => s
  | .ok _ _ => 200

/-- Trace of the side effects one request performed. -/
structure Effects where
  registrarCalls : Nat
  customerMail : Nat
  incomeSent : Option Income
  savedData : Option ErrorData
  adminData : Option ErrorData
  fileAfter : Option (List FailureRecord)
  deriving DecidableEq, Repr

/-- The empty trace: nothing called yet. -/
def e0 : Effects := ⟨0, 0, none, none, none, none⟩

/-- The `errorData` built at `server.js` lines 241-247: original email,
items and api_pass, the amount recomputed from the items WITHOUT rounding,
and the error message (with its `||` fallback). -/
def mkErrorData (req : Request) (items : List LineItem) (msg : String) : ErrorData :=
  ⟨req.email, items, totalOf items, msg, req.api_pass⟩

/-- The outer catch handler (`server.js` lines 238-256): save to the error
file, notify the admin (both best-effort, their own failures swallowed),
then respond 500 with the fixed message and `saved_to_error_file: true`. -/
def catchFlow (env : Env) (data : ErrorData) (eff : Effects) : Response × Effects :=
  let fileAfter := saveToErrorFile env.fileContent env.writeFile data env.timestamp
  (.error 500 "Не удалось создать чек. Данные сохранены для повторной попытки." (some true),
   { eff with savedData := some data, adminData := some data, fileAfter := fileAfter })

/-- The body of the create-receipt handler after authorization and
validation have passed (`server.js` lines 151-256). -/
def handleValidated (cfg : Config) (env : Env) (req : Request)
    (items : List LineItem) : Response × Effects :=
  let total := totalOf items
  let income : Income := ⟨cfg.appname, toFixed2 total, 1⟩
  let reg := createReceiptWithRetry (env.addIncome income) MAX_RETRIES
  let baseEff : Effects := { e0 with registrarCalls := reg.2, incomeSent := some income }
  match reg.1 with
  | some (.ok receiptId) =>
    let printLink :=
      "https://lknpd.nalog.ru/api/v1/receipt/" ++ cfg.inn ++ "/" ++ receiptId ++ "/print"
    match env.sendCustomerMail with
    | .ok _ => (.ok receiptId printLink, { baseEff with customerMail := 1 })
    | .error e =>
      catchFlow env (mkErrorData req items (errMessageOr e)) { baseEff with customerMail := 1 }
  | some (.error e) => catchFlow env (mkErrorData req items (errMessageOr e)) baseEff
  | none =>
    -- Dead for MAX_RETRIES = 3 (the loop always returns or throws when
    -- retries ≥ 1); with retries = 0 JavaScript would interpolate the
    -- `undefined` receipt id into the link and the success body.
    let printLink := "https://lknpd.nalog.ru/api/v1/receipt/" ++ cfg.inn ++ "/undefined/print"
    match env.sendCustomerMail with
    | .ok _ => (.ok "undefined" printLink, { baseEff with customerMail := 1 })
    | .error e =>
      catchFlow env (mkErrorData req items (errMessageOr e)) { baseEff with customerMail := 1 }

/-- `POST /api/v1/create-receipt` (`server.js` lines 139-257): shared-secret
check, then validation, then the registration/mail flow. -/
def handleCreateReceipt (cfg : Config) (env : Env) (req : Request) : Response × Effects :=
  if req.api_pass ≠ cfg.apiPass then
    (.error 401 "Unauthorized" none, e0)
  else if invalidData req then
    (.error 400 "Неверные данные" none, e0)
  else
    handleValidated cfg env req (req.items.getD [])

/-- The `/health` response body (`server.js` lines 114-137). -/
structure HealthResult where
  status : String
  connect_to_fns : String
  smtp : String
  deriving DecidableEq, Repr

/-- `GET /health` (`server.js` lines 114-137): start from all-ok, downgrade
`smtp` if `transporter.verify()` throws, downgrade `connect_to_fns` if
`nalogApi.getUserInfo()` throws, either failure forcing `status` to
degraded; always answer HTTP 200 via `res.json`. -/
def checkHealth (verify : Except String Unit) (getUserInfo : Except String Unit) :
    Nat × HealthResult :=
  let r1 : HealthResult := ⟨"ok", "ok", "ok"⟩
  let r2 :=
    match verify with
    | .ok _ => r1
    | .error _ => { r1 with smtp := "error", status := "degraded" }
  let r3 :=
    match getUserInfo with
    | .ok _ => r2
    | .error _ => { r2 with connect_to_fns := "error", status := "degraded" }
  (200, r3)

end FnsReceipt

namespace FnsReceipt

/-! ### Helper lemmas -/

/-- Folding the running sum from `c` equals `c` plus the mapped sum. -/
theorem foldl_itemAmount (items : List LineItem) (c : ℚ) :
    items.foldl (fun sum i => sum + itemAmount i) c = c + (items.map itemAmount).sum := by
  induction items generalizing c with
  | nil => simp
  | cons i rest ih => simp [List.foldl_cons, ih, add_assoc]

/-- The reduce over items is the sum of the per-item amounts. -/
theorem totalOf_eq_sum (items : List LineItem) :
    totalOf items = (items.map itemAmount).sum := by
  simpa using foldl_itemAmount items 0

end FnsReceipt

namespace FnsReceipt

/-- C2: `createReceiptWithRetry` makes at most 3 calls to the registrar,
returns the first successful result without further attempts (succeeding at
attempt 1, 2 or 3 makes exactly that many calls), and when all 3 attempts
fail it propagates the third attempt's error value itself, unwrapped. -/
theorem createReceiptWithRetry_contract {E R : Type} (o : Nat → Except E R) :
    (createReceiptWithRetry o MAX_RETRIES).2 ≤ 3 ∧
    (∀ r, o 1 = .ok r → createReceiptWithRetry o MAX_RETRIES = (some (.ok r), 1)) ∧
    (∀ e1 r, o 1 = .error e1 → o 2 = .ok r →
      createReceiptWithRetry o MAX_RETRIES = (some (.ok r), 2)) ∧
    (∀ e1 e2 r, o 1 = .error e1 → o 2 = .error e2 → o 3 = .ok r →
      createReceiptWithRetry o MAX_RETRIES = (some (.ok r), 3)) ∧
    (∀ e1 e2 e3, o 1 = .error e1 → o 2 = .error e2 → o 3 = .error e3 →
      createReceiptWithRetry o MAX_RETRIES = (some (.error e3), 3)) := by
  unfold createReceiptWithRetry MAX_RETRIES
  rcases h1 : o 1 with e1 | r1 <;> rcases h2 : o 2 with e2 | r2 <;>
    rcases h3 : o 3 with e3 | r3 <;>
      simp [retryLoop, h1, h2, h3]

/-- C3: the computed total, rounded to two decimals, is invariant under
permutation of the item list. -/
theorem totalOf_perm_invariant (l1 l2 : List LineItem) (h : l1.Perm l2) :
    toFixed2 (totalOf l1) = toFixed2 (totalOf l2) := by
  have hsum : totalOf l1 = totalOf l2 := by
    rw [totalOf_eq_sum, totalOf_eq_sum]
    exact (h.map itemAmount).sum_eq
  rw [hsum]

/-- Witness for C3 at a concrete two-item list and its swap. -/
theorem totalOf_perm_invariant_witness :
    toFixed2 (totalOf [⟨1, "A", 10.005, some 2⟩, ⟨2, "B", 5, some 1⟩]) =
      toFixed2 (totalOf [⟨2, "B", 5, some 1⟩, ⟨1, "A", 10.005, some 2⟩]) :=
  totalOf_perm_invariant _ _
    (List.Perm.swap (⟨2, "B", 5, some 1⟩ : LineItem) (⟨1, "A", 10.005, some 2⟩ : LineItem) [])

/-- C4: a wrong shared secret yields exactly the 401 `Unauthorized`
response and the empty effect trace: no registrar call, no customer mail,
no failure record, no admin notification. -/
theorem unauthorized_no_side_effects (cfg : Config) (env : Env) (req : Request)
    (h : req.api_pass ≠ cfg.apiPass) :
    handleCreateReceipt cfg env req = (.error 401 "Unauthorized" none, e0) := by
  unfold handleCreateReceipt
  rw [if_pos h]

/-- Witness for C4 at a concrete mismatching request. -/
theorem unauthorized_no_side_effects_witness :
    handleCreateReceipt ⟨"secret", "app", "123"⟩
        ⟨fun _ _ => .error "down", .ok (), .nonArray, fun _ => .ok (), .ok (), "t"⟩
        ⟨"wrong", some "a@b.c", some [⟨1, "A", 10, some 1⟩]⟩ =
      (.error 401 "Unauthorized" none, e0) :=
  unauthorized_no_side_effects _ _ _ (by decide)

/-- C5: with the secret correct but the email missing, or the items field
missing/null/non-array (`items = none`) or an empty array, the handler
yields exactly the 400 response and the empty effect trace. -/
theorem invalid_data_no_side_effects (cfg : Config) (env : Env) (req : Request)
    (hauth : req.api_pass = cfg.apiPass)
    (hbad : req.email = none ∨ req.items = none ∨ req.items = some []) :
    handleCreateReceipt cfg env req = (.error 400 "Неверные данные" none, e0) := by
  unfold handleCreateReceipt
  rw [if_neg (by simp [hauth]), if_pos]
  rcases hbad with h | h | h <;> simp [invalidData, h, emailPresent]

/-- Witness for C5 at a concrete request with an empty item list. -/
theorem invalid_data_no_side_effects_witness :
    handleCreateReceipt ⟨"secret", "app", "123"⟩
        ⟨fun _ _ => .error "down", .ok (), .nonArray, fun _ => .ok (), .ok (), "t"⟩
        ⟨"secret", some "a@b.c", some []⟩ =
      (.error 400 "Неверные данные" none, e0) :=
  invalid_data_no_side_effects _ _ _ (by decide) (Or.inr (Or.inr rfl))

/-- C6: `saveToErrorFile` treats a read error, a parse error, or a parsed
non-array as an empty prior collection; when the write succeeds the file
holds exactly the prior records followed by the one new record (the failure
data plus the generated timestamp and `retryAttempt = 0`); and a failed
write is swallowed (the total function returns `none` instead of
propagating). -/
theorem saveToErrorFile_contract (errorData : ErrorData) (ts : String)
    (write : List FailureRecord → Except String Unit) (content : FileContent) :
    ((∀ e, priorRecords (.readError e) = []) ∧
      (∀ e, priorRecords (.parseError e) = []) ∧
      priorRecords .nonArray = []) ∧
    (write (priorRecords content ++ [⟨errorData, ts, 0⟩]) = .ok () →
      saveToErrorFile content write errorData ts =
        some (priorRecords content ++ [⟨errorData, ts, 0⟩])) ∧
    (∀ e, write (priorRecords content ++ [⟨errorData, ts, 0⟩]) = .error e →
      saveToErrorFile content write errorData ts = none) := by
  refine ⟨⟨fun e => rfl, fun e => rfl, rfl⟩, ?_, ?_⟩
  · intro h
    simp [saveToErrorFile, h]
  · intro e h
    simp [saveToErrorFile, h]

/-- C8: `/health` always answers HTTP 200; both probes succeeding yields
all-ok; a failing mail probe degrades only `smtp`, a failing tax-authority
probe degrades only `connect_to_fns`, either forcing `status` to
`degraded`; probe failures never escape (the function is total in both
oracles). -/
theorem checkHealth_contract :
    (∀ verify getUserInfo, (checkHealth verify getUserInfo).1 = 200) ∧
    checkHealth (.ok ()) (.ok ()) = (200, ⟨"ok", "ok", "ok"⟩) ∧
    (∀ e, checkHealth (.error e) (.ok ()) = (200, ⟨"degraded", "ok", "error"⟩)) ∧
    (∀ e, checkHealth (.ok ()) (.error e) = (200, ⟨"degraded", "error", "ok"⟩)) ∧
    (∀ e e', checkHealth (.error e) (.error e') = (200, ⟨"degraded", "error", "error"⟩)) := by
  refine ⟨fun verify getUserInfo => ?_, rfl, fun e => rfl, fun e => rfl, fun e e' => rfl⟩
  rcases verify with e | u <;> rcases getUserInfo with e' | u' <;> rfl

end FnsReceipt

namespace FnsReceipt

/-- An authorized, valid request reduces to the post-validation flow. -/
theorem handleCreateReceipt_valid (cfg : Config) (env : Env) (req : Request)
    (items : List LineItem)
    (hauth : req.api_pass = cfg.apiPass)
    (hmail : emailPresent req.email = true)
    (hitems : req.items = some items)
    (hne : items ≠ []) :
    handleCreateReceipt cfg env req = handleValidated cfg env req items := by
  have hvalid : invalidData req = false := by
    simp [invalidData, hmail, hitems, hne]
  unfold handleCreateReceipt
  rw [if_neg (by simp [hauth]), if_neg (by simp [hvalid]), hitems]
  rfl

/-- Whatever the registrar and the mail transport do, the post-validation
flow builds one income object: the configured app name, the rounded grand
total, quantity 1. -/
theorem handleValidated_incomeSent (cfg : Config) (env : Env) (req : Request)
    (items : List LineItem) :
    (handleValidated cfg env req items).2.incomeSent =
      some ⟨cfg.appname, toFixed2 (totalOf items), 1⟩ := by
  simp only [handleValidated, catchFlow]
  split <;> (try split) <;> rfl

/-- C1: for every accepted request (secret matches, email present, items a
non-empty list) the `IncomeDeclaration` handed to the registrar carries
`amount = toFixed2 (totalOf items)`: the unrounded sum of
`price * (quantity || 1)` over all items, rounded to two decimals exactly
once, on the grand total — `totalOf` performs no per-line rounding. -/
theorem income_amount_rounded_once (cfg : Config) (env : Env) (req : Request)
    (items : List LineItem)
    (hauth : req.api_pass = cfg.apiPass)
    (hmail : emailPresent req.email = true)
    (hitems : req.items = some items)
    (hne : items ≠ []) :
    (handleCreateReceipt cfg env req).2.incomeSent =
      some ⟨cfg.appname, toFixed2 (totalOf items), 1⟩ := by
  rw [handleCreateReceipt_valid cfg env req items hauth hmail hitems hne]
  exact handleValidated_incomeSent cfg env req items

/-- Witness for C1 at the spec's worked example: the declared amount for
items (10.005 × 2) and (5 × 1) is 25.01 — rounded once, on the sum. -/
theorem income_amount_rounded_once_witness :
    (handleCreateReceipt ⟨"secret", "app", "123"⟩
        ⟨fun _ _ => .ok "r1", .ok (), .nonArray, fun _ => .ok (), .ok (), "t"⟩
        ⟨"secret", some "a@b.c",
          some [⟨1, "A", 10.005, some 2⟩, ⟨2, "B", 5, some 1⟩]⟩).2.incomeSent =
      some ⟨"app", 25.01, 1⟩ := by
  have h := income_amount_rounded_once ⟨"secret", "app", "123"⟩
    ⟨fun _ _ => .ok "r1", .ok (), .nonArray, fun _ => .ok (), .ok (), "t"⟩
    ⟨"secret", some "a@b.c", some [⟨1, "A", 10.005, some 2⟩, ⟨2, "B", 5, some 1⟩]⟩
    [⟨1, "A", 10.005, some 2⟩, ⟨2, "B", 5, some 1⟩]
    rfl (by decide) rfl (by simp)
  rw [h]
  norm_num [totalOf, itemAmount, qtyOr1, toFixed2, round_eq, List.foldl]

/-- C9: on the fully successful path, the response is
`{success: true, receiptId, printLink}` with the registrar's receipt id and
the print link instantiated from the configured INN and that id. -/
theorem success_response (cfg : Config) (env : Env) (req : Request)
    (items : List LineItem) (rid : String)
    (hauth : req.api_pass = cfg.apiPass)
    (hmail : emailPresent req.email = true)
    (hitems : req.items = some items)
    (hne : items ≠ [])
    (hreg : (createReceiptWithRetry
        (env.addIncome ⟨cfg.appname, toFixed2 (totalOf items), 1⟩) MAX_RETRIES).1 =
      some (.ok rid))
    (hsend : env.sendCustomerMail = .ok ()) :
    (handleCreateReceipt cfg env req).1 =
      .ok rid ("https://lknpd.nalog.ru/api/v1/receipt/" ++ cfg.inn ++ "/" ++ rid ++ "/print") := by
  rw [handleCreateReceipt_valid cfg env req items hauth hmail hitems hne]
  simp only [handleValidated, hreg, hsend]

/-- Witness for C9: a concrete successful run produces the concrete link. -/
theorem success_response_witness :
    (handleCreateReceipt ⟨"secret", "app", "123456789012"⟩
        ⟨fun _ _ => .ok "42gh", .ok (), .nonArray, fun _ => .ok (), .ok (), "t"⟩
        ⟨"secret", some "a@b.c", some [⟨1, "A", 10, some 1⟩]⟩).1 =
      .ok "42gh" "https://lknpd.nalog.ru/api/v1/receipt/123456789012/42gh/print" := by
  have h := success_response ⟨"secret", "app", "123456789012"⟩
    ⟨fun _ _ => .ok "42gh", .ok (), .nonArray, fun _ => .ok (), .ok (), "t"⟩
    ⟨"secret", some "a@b.c", some [⟨1, "A", 10, some 1⟩]⟩
    [⟨1, "A", 10, some 1⟩] "42gh"
    rfl (by decide) rfl (by simp) rfl rfl
  rw [h]
  rfl

/-- C7: when registration succeeds but the customer email fails, the same
outer catch runs: the failure recorder and the admin notifier both receive
the error data rebuilt from the original request (email, items, the amount
recomputed unrounded, api_pass), and the response is the 500
saved-for-retry body with the persistence flag. -/
theorem mail_failure_treated_as_registration_failure (cfg : Config) (env : Env)
    (req : Request) (items : List LineItem) (rid e : String)
    (hauth : req.api_pass = cfg.apiPass)
    (hmail : emailPresent req.email = true)
    (hitems : req.items = some items)
    (hne : items ≠ [])
    (hreg : (createReceiptWithRetry
        (env.addIncome ⟨cfg.appname, toFixed2 (totalOf items), 1⟩) MAX_RETRIES).1 =
      some (.ok rid))
    (hsend : env.sendCustomerMail = .error e) :
    (handleCreateReceipt cfg env req).1 =
      .error 500 "Не удалось создать чек. Данные сохранены для повторной попытки." (some true) ∧
    (handleCreateReceipt cfg env req).2.savedData =
      some (mkErrorData req items (errMessageOr e)) ∧
    (handleCreateReceipt cfg env req).2.adminData =
      some (mkErrorData req items (errMessageOr e)) := by
  rw [handleCreateReceipt_valid cfg env req items hauth hmail hitems hne]
  simp only [handleValidated, catchFlow, hreg, hsend]
  exact ⟨trivial, trivial, trivial⟩

/-- Witness for C7: a concrete run with a working registrar and a failing
SMTP send lands in the catch path with the original data. -/
theorem mail_failure_treated_as_registration_failure_witness :
    (handleCreateReceipt ⟨"secret", "app", "123"⟩
        ⟨fun _ _ => .ok "r1", .error "smtp down", .nonArray, fun _ => .ok (), .ok (), "t"⟩
        ⟨"secret", some "a@b.c", some [⟨1, "A", 10, some 1⟩]⟩).1 =
      .error 500 "Не удалось создать чек. Данные сохранены для повторной попытки." (some true) ∧
    (handleCreateReceipt ⟨"secret", "app", "123"⟩
        ⟨fun _ _ => .ok "r1", .error "smtp down", .nonArray, fun _ => .ok (), .ok (), "t"⟩
        ⟨"secret", some "a@b.c", some [⟨1, "A", 10, some 1⟩]⟩).2.savedData =
      some (mkErrorData ⟨"secret", some "a@b.c", some [⟨1, "A", 10, some 1⟩]⟩
        [⟨1, "A", 10, some 1⟩] (errMessageOr "smtp down")) ∧
    (handleCreateReceipt ⟨"secret", "app", "123"⟩
        ⟨fun _ _ => .ok "r1", .error "smtp down", .nonArray, fun _ => .ok (), .ok (), "t"⟩
        ⟨"secret", some "a@b.c", some [⟨1, "A", 10, some 1⟩]⟩).2.adminData =
      some (mkErrorData ⟨"secret", some "a@b.c", some [⟨1, "A", 10, some 1⟩]⟩
        [⟨1, "A", 10, some 1⟩] (errMessageOr "smtp down")) :=
  mail_failure_treated_as_registration_failure ⟨"secret", "app", "123"⟩
    ⟨fun _ _ => .ok "r1", .error "smtp down", .nonArray, fun _ => .ok (), .ok (), "t"⟩
    ⟨"secret", some "a@b.c", some [⟨1, "A", 10, some 1⟩]⟩
    [⟨1, "A", 10, some 1⟩] "r1" "smtp down"
    rfl (by decide) rfl (by simp) rfl rfl

/-- Every response of the post-validation flow is either a success body or
the fixed 500 body with `saved_to_error_file: true`. -/
theorem handleValidated_response_shape (cfg : Config) (env : Env) (req : Request)
    (items : List LineItem) :
    (∃ rid link, (handleValidated cfg env req items).1 = .ok rid link) ∨
    (handleValidated cfg env req items).1 =
      .error 500 "Не удалось создать чек. Данные сохранены для повторной попытки." (some true) := by
  simp only [handleValidated, catchFlow]
  split
  · split
    · exact Or.inl ⟨_, _, rfl⟩
    · exact Or.inr rfl
  · exact Or.inr rfl
  · split
    · exact Or.inl ⟨_, _, rfl⟩
    · exact Or.inr rfl

/-- The handler can only answer with the 401 body, the 400 body, a success
body, or the fixed 500 body carrying `saved_to_error_file: true`. -/
theorem handleCreateReceipt_response_shape (cfg : Config) (env : Env) (req : Request) :
    (handleCreateReceipt cfg env req).1 = .error 401 "Unauthorized" none ∨
    (handleCreateReceipt cfg env req).1 = .error 400 "Неверные данные" none ∨
    (∃ rid link, (handleCreateReceipt cfg env req).1 = .ok rid link) ∨
    (handleCreateReceipt cfg env req).1 =
      .error 500 "Не удалось создать чек. Данные сохранены для повторной попытки." (some true) := by
  unfold handleCreateReceipt
  split
  · exact Or.inl rfl
  · split
    · exact Or.inr (Or.inl rfl)
    · rcases handleValidated_response_shape cfg env req (req.items.getD []) with h | h
      · exact Or.inr (Or.inr (Or.inl h))
      · exact Or.inr (Or.inr (Or.inr h))

/-- C10: every 500 response the handler produces — i.e. every request that
reaches the outer catch — carries `saved_to_error_file: true`, for every
environment, in particular regardless of whether the failure-file write or
the admin notification succeeded (both swallow their own errors before the
response is built). -/
theorem catch_response_flags_saved (cfg : Config) (env : Env) (req : Request)
    (h500 : ((handleCreateReceipt cfg env req).1).status = 500) :
    (handleCreateReceipt cfg env req).1 =
      .error 500 "Не удалось создать чек. Данные сохранены для повторной попытки." (some true) := by
  rcases handleCreateReceipt_response_shape cfg env req with h | h | ⟨rid, link, h⟩ | h
  · rw [h] at h500; simp [Response.status] at h500
  · rw [h] at h500; simp [Response.status] at h500
  · rw [h] at h500; simp [Response.status] at h500
  · exact h

/-- Witness for C10: a concrete run where the registrar always fails AND
the failure-file write AND the admin mail both fail still responds 500 with
the flag set. -/
theorem catch_response_flags_saved_witness :
    (handleCreateReceipt ⟨"secret", "app", "123"⟩
        ⟨fun _ _ => .error "fns down", .ok (), .readError "enoent",
          fun _ => .error "disk full", .error "smtp down", "t"⟩
        ⟨"secret", some "a@b.c", some [⟨1, "A", 10, some 1⟩]⟩).1 =
      .error 500 "Не удалось создать чек. Данные сохранены для повторной попытки." (some true) :=
  catch_response_flags_saved ⟨"secret", "app", "123"⟩
    ⟨fun _ _ => .error "fns down", .ok (), .readError "enoent",
      fun _ => .error "disk full", .error "smtp down", "t"⟩
    ⟨"secret", some "a@b.c", some [⟨1, "A", 10, some 1⟩]⟩
    rfl

end FnsReceipt
